import Mathlib

/-!
Shallow embedding of the pan-tilt pet-tracker control modules
(`src/modules/servo_controller.py`, `src/modules/simple_p_controller.py`,
`src/modules/pid_controller.py`, `src/modules/tracking_coordinator.py`).

Machine floats are modelled by exact rationals; wall-clock timestamps are
passed explicitly as rational parameters; `np.sin` is passed as an explicit
function parameter of the coordinator step.  Python exceptions raised by
configuration setters are modelled by a returned Boolean success flag with
the object state returned unchanged on the raising path.
-/

namespace PanTilt

/-- `np.clip(x, lo, hi)`: numpy applies the lower bound first, then the
upper bound, i.e. `min hi (max lo x)`. -/
def clip (x lo hi : ℚ) : ℚ := min hi (max lo x)

theorem clip_le_right {x lo hi : ℚ} : clip x lo hi ≤ hi := min_le_left _ _

theorem left_le_clip {x lo hi : ℚ} (h : lo ≤ hi) : lo ≤ clip x lo hi :=
  le_min h (le_max_left _ _)

theorem abs_clip_le {x m : ℚ} (h : 0 ≤ m) : |clip x (-m) m| ≤ m :=
  abs_le.mpr ⟨left_le_clip (by linarith), clip_le_right⟩

/-! ### Servo controller (`servo_controller.py`) -/

/-- `ServoStatus` enum of `servo_controller.py`. -/
inductive ServoStatus where
  | uninitialized
  | initializing
  | ready
  | moving
  | error
deriving DecidableEq

/-- The state of a `ServoController`: configured safety ranges, the cached
current angles (the ActuatorState) and the status field.  Hardware handles
(`i2c`, `pca`, servo objects) carry no logical content and are omitted. -/
structure Servo where
  panMin : ℚ
  panMax : ℚ
  tiltMin : ℚ
  tiltMax : ℚ
  currentPanAngle : ℚ
  currentTiltAngle : ℚ
  status : ServoStatus
deriving DecidableEq

/-- `ServoController.__init__` with the given ranges: angles start at 0,
status `UNINITIALIZED`. -/
def mkServo (panMin panMax tiltMin tiltMax : ℚ) : Servo :=
  { panMin := panMin, panMax := panMax, tiltMin := tiltMin, tiltMax := tiltMax
    currentPanAngle := 0, currentTiltAngle := 0
    status := ServoStatus.uninitialized }

/-- `ServoController._is_pan_angle_safe`. -/
def Servo.isPanAngleSafe (s : Servo) (angle : ℚ) : Bool :=
  decide (s.panMin ≤ angle ∧ angle ≤ s.panMax)

/-- `ServoController._is_tilt_angle_safe`. -/
def Servo.isTiltAngleSafe (s : Servo) (angle : ℚ) : Bool :=
  decide (s.tiltMin ≤ angle ∧ angle ≤ s.tiltMax)

/-- `ServoController.is_angle_safe`. -/
def Servo.isAngleSafe (s : Servo) (pan tilt : ℚ) : Bool :=
  s.isPanAngleSafe pan && s.isTiltAngleSafe tilt

/-- `ServoController._is_ready`: status must be `READY`. -/
def Servo.isReady (s : Servo) : Bool :=
  decide (s.status = ServoStatus.ready)

/-- `ServoController.set_angles`: fails (returns `false`) when the servo is
not ready or either angle is outside its safety range, leaving the state
unchanged; otherwise writes both cached angles and succeeds.  The transient
`MOVING` status ends as `READY` on the success path. -/
def Servo.setAngles (s : Servo) (panAngle tiltAngle : ℚ) : Servo × Bool :=
  if ¬ s.isReady then (s, false)
  else if ¬ s.isAngleSafe panAngle tiltAngle then (s, false)
  else ({ s with currentPanAngle := panAngle, currentTiltAngle := tiltAngle
                 status := ServoStatus.ready }, true)

/-- `ServoController.initialize`, with the hardware outcome passed as a
Boolean: success centers the servos and sets `READY`; failure sets
`ERROR`. -/
def Servo.initServo (s : Servo) (hwOk : Bool) : Servo × Bool :=
  if hwOk then
    ({ s with currentPanAngle := 0, currentTiltAngle := 0
              status := ServoStatus.ready }, true)
  else ({ s with status := ServoStatus.error }, false)

/-! ### Simple P controller (`simple_p_controller.py`) -/

/-- `SimplePStatus` enum. -/
inductive SimplePStatus where
  | uninitialized
  | ready
  | running
  | error
deriving DecidableEq

/-- The `SimplePState` dataclass. -/
structure SimplePState where
  lastError : ℚ × ℚ
  lastOutput : ℚ × ℚ
  lastUpdateTime : ℚ
  totalCorrections : ℕ
deriving DecidableEq

/-- One entry of `performance_history` in `calculate_correction`. -/
structure SimplePEntry where
  timestamp : ℚ
  detectionCenter : ℚ × ℚ
  pixelError : ℚ × ℚ
  correction : ℚ × ℚ
  isInDeadband : Bool
deriving DecidableEq

/-- A `SimpleProportionalController`: image geometry, gains, limits, the
`SimplePState`, the status field and the performance history. -/
structure SimpleP where
  imageWidth : ℤ
  imageHeight : ℤ
  panGain : ℚ
  tiltGain : ℚ
  maxCorrection : ℚ
  deadband : ℚ
  state : SimplePState
  status : SimplePStatus
  performanceHistory : List SimplePEntry
deriving DecidableEq

/-- `image_center = (image_width // 2, image_height // 2)` (Python floor
division). -/
def SimpleP.imageCenter (c : SimpleP) : ℤ × ℤ :=
  (Int.fdiv c.imageWidth 2, Int.fdiv c.imageHeight 2)

/-- `SimpleProportionalController.__init__` at time `now`: defaults mirror
the Python defaults, status ends `READY`. -/
def mkSimpleP (imageWidth imageHeight : ℤ) (panGain tiltGain maxCorrection deadband : ℚ)
    (now : ℚ) : SimpleP :=
  { imageWidth := imageWidth, imageHeight := imageHeight
    panGain := panGain, tiltGain := tiltGain
    maxCorrection := maxCorrection, deadband := deadband
    state := { lastError := (0, 0), lastOutput := (0, 0)
               lastUpdateTime := now, totalCorrections := 0 }
    status := SimplePStatus.ready
    performanceHistory := [] }

/-- The default-parameter constructor `SimpleProportionalController()`:
640x480 image, gains (0.0156, 0.0208), max correction 15, deadband 5. -/
def defaultSimpleP (now : ℚ) : SimpleP :=
  mkSimpleP 640 480 (156/10000) (208/10000) 15 5 now

/-- `SimpleProportionalController.calculate_correction` at time `now`.
Returns the updated controller and the `(pan_correction, tilt_correction)`
pair.  In `ERROR` status it returns `(0, 0)` and changes nothing; otherwise
it computes the pixel error from the image center, zeroes each component
under the deadband, scales by the gains (tilt negated), clips to
`±max_correction`, and records state and history (history capped at 50 by
popping the oldest entry). -/
def SimpleP.calculateCorrection (c : SimpleP) (center : ℚ × ℚ) (now : ℚ) :
    SimpleP × (ℚ × ℚ) :=
  if c.status = SimplePStatus.error then (c, (0, 0))
  else
    let xErr0 : ℚ := center.1 - (c.imageCenter.1 : ℚ)
    let yErr0 : ℚ := center.2 - (c.imageCenter.2 : ℚ)
    let xErr : ℚ := if |xErr0| < c.deadband then 0 else xErr0
    let yErr : ℚ := if |yErr0| < c.deadband then 0 else yErr0
    let panCorrection : ℚ := clip (xErr * c.panGain) (-c.maxCorrection) c.maxCorrection
    let tiltCorrection : ℚ := clip (-yErr * c.tiltGain) (-c.maxCorrection) c.maxCorrection
    let entry : SimplePEntry :=
      { timestamp := now, detectionCenter := center
        pixelError := (xErr, yErr), correction := (panCorrection, tiltCorrection)
        isInDeadband := decide (|xErr| < c.deadband ∧ |yErr| < c.deadband) }
    let hist := c.performanceHistory ++ [entry]
    let hist := if hist.length > 50 then hist.tail else hist
    ({ c with
        status := SimplePStatus.ready
        state := { lastError := (xErr, yErr)
                   lastOutput := (panCorrection, tiltCorrection)
                   lastUpdateTime := now
                   totalCorrections := c.state.totalCorrections + 1 }
        performanceHistory := hist },
     (panCorrection, tiltCorrection))

/-- `SimpleProportionalController.reset` at time `now`: clears the state and
history; restores `READY` only when the status is not `ERROR`. -/
def SimpleP.reset (c : SimpleP) (now : ℚ) : SimpleP :=
  { c with
      state := { lastError := (0, 0), lastOutput := (0, 0)
                 lastUpdateTime := now, totalCorrections := 0 }
      performanceHistory := []
      status := if c.status ≠ SimplePStatus.error then SimplePStatus.ready else c.status }

/-! ### PID controller (`pid_controller.py`) -/

/-- `PIDStatus` enum. -/
inductive PIDStatus where
  | uninitialized
  | ready
  | running
  | saturated
  | error
deriving DecidableEq

/-- The `PIDState` dataclass. -/
structure PIDState where
  proportional : ℚ
  integral : ℚ
  derivative : ℚ
  prevError : ℚ
  prevTime : ℚ
  output : ℚ
  isSaturated : Bool
deriving DecidableEq

/-- One entry of the PID `performance_history`. -/
structure PIDEntry where
  timestamp : ℚ
  err : ℚ
  output : ℚ
  pTerm : ℚ
  iTerm : ℚ
  dTerm : ℚ
  isSaturated : Bool
deriving DecidableEq

/-- A `PIDController`: gains, output and integral limits, sample time, the
`PIDState`, status, counters and history. -/
structure PID where
  kP : ℚ
  kI : ℚ
  kD : ℚ
  outputLimits : ℚ × ℚ
  integralLimits : ℚ × ℚ
  sampleTime : ℚ
  state : PIDState
  status : PIDStatus
  saturationCount : ℕ
  totalUpdates : ℕ
  performanceHistory : List PIDEntry
deriving DecidableEq

/-- `PIDController.__init__` at time `now`: status ends `READY`,
`prev_time` is set to the construction time. -/
def mkPID (kP kI kD : ℚ) (outputLimits integralLimits : ℚ × ℚ)
    (sampleTime : ℚ) (now : ℚ) : PID :=
  { kP := kP, kI := kI, kD := kD
    outputLimits := outputLimits, integralLimits := integralLimits
    sampleTime := sampleTime
    state := { proportional := 0, integral := 0, derivative := 0
               prevError := 0, prevTime := now, output := 0, isSaturated := false }
    status := PIDStatus.ready
    saturationCount := 0, totalUpdates := 0
    performanceHistory := [] }

/-- The default-parameter constructor `PIDController()`:
kP 1, kI 0, kD 0, output limits (-90, 90), integral limits (-50, 50),
sample time 0.01. -/
def defaultPID (now : ℚ) : PID :=
  mkPID 1 0 0 (-90, 90) (-50, 50) (1/100) now

/-- `PIDController.update` at time `now`.  In `ERROR` status it returns 0
and changes nothing.  When `delta_time < sample_time` and this is not the
first update, it returns the previous output (status left `RUNNING`).
Otherwise: P term `kP * error`; when `delta_time > 0` the integral gains
`error * delta_time` and is clipped to the integral limits; I term
`kI * integral`; D term from the error difference when `delta_time > 0` and
not the first update; raw output is the sum, the returned output is the raw
output clipped to the output limits; the saturated flag compares `|raw|`
against `max |output_min| |output_max|`; history is capped at 100. -/
def PID.update (c : PID) (err : ℚ) (now : ℚ) : PID × ℚ :=
  if c.status = PIDStatus.error then (c, 0)
  else
    let deltaTime : ℚ := now - c.state.prevTime
    if deltaTime < c.sampleTime ∧ c.totalUpdates > 0 then
      ({ c with status := PIDStatus.running }, c.state.output)
    else
      let p : ℚ := c.kP * err
      let integral : ℚ :=
        if deltaTime > 0 then
          clip (c.state.integral + err * deltaTime) c.integralLimits.1 c.integralLimits.2
        else c.state.integral
      let integralTerm : ℚ := c.kI * integral
      let d : ℚ :=
        if deltaTime > 0 ∧ c.totalUpdates > 0 then
          c.kD * ((err - c.state.prevError) / deltaTime)
        else 0
      let rawOutput : ℚ := p + integralTerm + d
      let output : ℚ := clip rawOutput c.outputLimits.1 c.outputLimits.2
      let sat : Bool := decide (|rawOutput| > max |c.outputLimits.1| |c.outputLimits.2|)
      let entry : PIDEntry :=
        { timestamp := now, err := err, output := output
          pTerm := p, iTerm := integralTerm, dTerm := d, isSaturated := sat }
      let hist := c.performanceHistory ++ [entry]
      let hist := if hist.length > 100 then hist.tail else hist
      ({ c with
          state := { proportional := p, integral := integral, derivative := d
                     prevError := err, prevTime := now, output := output
                     isSaturated := sat }
          status := if sat then PIDStatus.saturated else PIDStatus.ready
          saturationCount := c.saturationCount + (if sat then 1 else 0)
          totalUpdates := c.totalUpdates + 1
          performanceHistory := hist },
       output)

/-- `PIDController.reset` at time `now`: zeroes the `PIDState`, clears the
saturation counter and history (`total_updates` is kept); restores `READY`
only when the status is not `ERROR`. -/
def PID.reset (c : PID) (now : ℚ) : PID :=
  { c with
      state := { proportional := 0, integral := 0, derivative := 0
                 prevError := 0, prevTime := now, output := 0, isSaturated := false }
      saturationCount := 0
      performanceHistory := []
      status := if c.status ≠ PIDStatus.error then PIDStatus.ready else c.status }

/-- `PIDController.set_output_limits`: the Boolean is `false` when the call
raises `PIDError` (i.e. `min_output ≥ max_output`); on that path the
controller is returned unmodified. -/
def PID.setOutputLimits (c : PID) (minOutput maxOutput : ℚ) : PID × Bool :=
  if minOutput ≥ maxOutput then (c, false)
  else ({ c with outputLimits := (minOutput, maxOutput) }, true)

/-- `PIDController.set_integral_limits`: the Boolean is `false` when the
call raises `PIDError` (i.e. `min_integral ≥ max_integral`); on that path
the controller is returned unmodified. -/
def PID.setIntegralLimits (c : PID) (minIntegral maxIntegral : ℚ) : PID × Bool :=
  if minIntegral ≥ maxIntegral then (c, false)
  else ({ c with integralLimits := (minIntegral, maxIntegral) }, true)

/-- A run of `PIDController.update` over a list of `(error, time)` steps. -/
def PID.runUpdates (c : PID) (steps : List (ℚ × ℚ)) : PID :=
  steps.foldl (fun acc step => (acc.update step.1 step.2).1) c

/-! ### Tracking coordinator (`tracking_coordinator.py`) -/

/-- `TrackingMode` enum. -/
inductive TrackingMode where
  | standby
  | scanning
  | tracking
deriving DecidableEq

/-- A bounding box `(x1, y1, x2, y2)` of a detection. -/
structure BBox where
  x1 : ℚ
  y1 : ℚ
  x2 : ℚ
  y2 : ℚ
deriving DecidableEq

/-- A detection dict as consumed by `_update_tracking_control`. -/
structure Detection where
  className : String
  confidence : ℚ
  bbox : BBox
deriving DecidableEq

/-- The `SystemStatus` dataclass (the `tracking_duration` bookkeeping field
is omitted; no claim mentions it). -/
structure SystemStatus where
  mode : TrackingMode
  targetDetected : Bool
  targetClass : String
  targetConfidence : ℚ
  panAngle : ℚ
  tiltAngle : ℚ
  correctionApplied : ℚ × ℚ
  lastDetectionTime : Option ℚ
  totalDetections : ℕ
deriving DecidableEq

/-- A `TrackingCoordinator`: configuration, `SystemStatus`, and the owned
servo controller and Simple P controller. -/
structure Coordinator where
  imageWidth : ℤ
  imageHeight : ℤ
  lostTargetTimeout : ℚ
  status : SystemStatus
  servo : Servo
  simpleP : SimpleP
deriving DecidableEq

/-- `TrackingCoordinator.__init__`: mode starts `STANDBY`, angles 0, no
detection yet.  The servo and P controller fields are created lazily in
Python (`None` until `initialize_system`); here they hold their
pre-initialization constructor states. -/
def mkCoordinator (imageWidth imageHeight : ℤ) (lostTargetTimeout : ℚ) (now : ℚ) :
    Coordinator :=
  { imageWidth := imageWidth, imageHeight := imageHeight
    lostTargetTimeout := lostTargetTimeout
    status := { mode := TrackingMode.standby, targetDetected := false
                targetClass := "", targetConfidence := 0
                panAngle := 0, tiltAngle := 0, correctionApplied := (0, 0)
                lastDetectionTime := none, totalDetections := 0 }
    servo := mkServo (-90) 90 (-45) 45
    simpleP := mkSimpleP 640 480 (156/10000) (208/10000) 15 5 now }

/-- `TrackingCoordinator.initialize_system`, with the hardware outcomes of
the camera, the servo driver and the YOLO model load passed as Booleans.
The camera is opened first; then a fresh `ServoController()` is initialized
and centered (`move_to_center`) with the cached status angles set to 0; then
the detector loads; then a fresh `SimpleProportionalController` is built for
the configured image size; only after all succeed is the mode set to
`SCANNING`.  Any failure returns `false` without touching the mode. -/
def Coordinator.initSystem (c : Coordinator) (cameraOk servoOk yoloOk : Bool)
    (now : ℚ) : Coordinator × Bool :=
  if ¬ cameraOk then (c, false)
  else
    let servoPair := (mkServo (-90) 90 (-45) 45).initServo servoOk
    if ¬ servoPair.2 then ({ c with servo := servoPair.1 }, false)
    else
      let servoPair2 := servoPair.1.setAngles 0 0
      let c := { c with servo := servoPair2.1
                        status := { c.status with panAngle := 0, tiltAngle := 0 } }
      if ¬ yoloOk then (c, false)
      else
        let c := { c with simpleP := mkSimpleP c.imageWidth c.imageHeight
                                       (156/10000) (208/10000) 15 5 now }
        ({ c with status := { c.status with mode := TrackingMode.scanning } }, true)

/-- `TrackingCoordinator._execute_scan_pattern` at time `now`, with `np.sin`
passed as `sinA`: `angle_offset = 30 * sin(now * 0.1)`; the new pan goes
through `is_angle_safe` and, when safe, through `set_angles`, and the cached
status angles are set to `(new_pan, 0)`. -/
def Coordinator.executeScanPattern (sinA : ℚ → ℚ) (c : Coordinator) (now : ℚ) :
    Coordinator :=
  let angleOffset : ℚ := 30 * sinA (now * (1/10))
  let newPan := angleOffset
  if c.servo.isAngleSafe newPan 0 then
    let servoPair := c.servo.setAngles newPan 0
    { c with servo := servoPair.1
             status := { c.status with panAngle := newPan, tiltAngle := 0 } }
  else c

/-- `TrackingCoordinator._update_tracking_control` at time `now` on an
optional best detection, with `np.sin` passed as `sinA`.
With a detection: switch to `TRACKING` if not already there; compute the
bbox center; run the Simple P correction; add it to the cached angles; when
`is_angle_safe` accepts the new pair, call `set_angles` and update the
cached angles and `correction_applied`; finally record the detection info
and timestamp.  Without a detection: clear `target_detected`; when a last
detection exists and is older than `lost_target_timeout`, demote `TRACKING`
to `SCANNING` and run the scan pattern; otherwise do nothing more. -/
def Coordinator.updateTrackingControl (sinA : ℚ → ℚ) (c : Coordinator)
    (det : Option Detection) (now : ℚ) : Coordinator :=
  match det with
  | some d =>
    let c :=
      if c.status.mode ≠ TrackingMode.tracking then
        { c with status := { c.status with mode := TrackingMode.tracking } }
      else c
    let centerX : ℚ := (d.bbox.x1 + d.bbox.x2) / 2
    let centerY : ℚ := (d.bbox.y1 + d.bbox.y2) / 2
    let pPair := c.simpleP.calculateCorrection (centerX, centerY) now
    let c := { c with simpleP := pPair.1 }
    let correction := pPair.2
    let newPan : ℚ := c.status.panAngle + correction.1
    let newTilt : ℚ := c.status.tiltAngle + correction.2
    let c :=
      if c.servo.isAngleSafe newPan newTilt then
        let servoPair := c.servo.setAngles newPan newTilt
        { c with servo := servoPair.1
                 status := { c.status with panAngle := newPan, tiltAngle := newTilt
                                           correctionApplied := correction } }
      else c
    { c with status := { c.status with targetDetected := true
                                       targetClass := d.className
                                       targetConfidence := d.confidence
                                       lastDetectionTime := some now } }
  | none =>
    let c := { c with status := { c.status with targetDetected := false } }
    match c.status.lastDetectionTime with
    | some t =>
      if now - t > c.lostTargetTimeout then
        let c :=
          if c.status.mode = TrackingMode.tracking then
            { c with status := { c.status with mode := TrackingMode.scanning } }
          else c
        Coordinator.executeScanPattern sinA c now
      else c
    | none => c

/-! ### Helper lemmas shared by several claims -/

/-- `set_angles` succeeds on a ready servo when both angles are safe. -/
theorem Servo.setAngles_succeeds {s : Servo} (hr : s.status = ServoStatus.ready)
    {pan tilt : ℚ} (hs : s.isAngleSafe pan tilt = true) :
    (s.setAngles pan tilt).2 = true := by
  simp [Servo.setAngles, Servo.isReady, hr, hs]

/-- `calculate_correction` in `ERROR` status is a no-op returning `(0, 0)`. -/
theorem SimpleP.calcCorrection_error {c : SimpleP} (h : c.status = SimplePStatus.error)
    (center : ℚ × ℚ) (now : ℚ) : c.calculateCorrection center now = (c, (0, 0)) := by
  simp [SimpleP.calculateCorrection, h]

/-- The correction returned by a non-error `calculate_correction`. -/
theorem SimpleP.calcCorrection_snd {c : SimpleP} (h : c.status ≠ SimplePStatus.error)
    (x y now : ℚ) :
    (c.calculateCorrection (x, y) now).2 =
      (clip ((if |x - (c.imageCenter.1 : ℚ)| < c.deadband then 0
              else x - (c.imageCenter.1 : ℚ)) * c.panGain)
          (-c.maxCorrection) c.maxCorrection,
       clip (-(if |y - (c.imageCenter.2 : ℚ)| < c.deadband then 0
               else y - (c.imageCenter.2 : ℚ)) * c.tiltGain)
          (-c.maxCorrection) c.maxCorrection) := by
  simp [SimpleP.calculateCorrection, h]

/-- `PIDController.update` in `ERROR` status is a no-op returning 0. -/
theorem PID.update_of_error {c : PID} (h : c.status = PIDStatus.error)
    (e now : ℚ) : c.update e now = (c, 0) := by
  simp [PID.update, h]

/-- The sample-time early return of `PIDController.update`: when the sample
time has not elapsed and this is not the first update, the previous output
is returned and only the status field changes. -/
theorem PID.update_early {c : PID} {e now : ℚ} (h : c.status ≠ PIDStatus.error)
    (h2 : now - c.state.prevTime < c.sampleTime ∧ c.totalUpdates > 0) :
    c.update e now = ({ c with status := PIDStatus.running }, c.state.output) := by
  simp [PID.update, h, h2]

/-- The full-computation path of `PIDController.update`, spelled out. -/
theorem PID.update_run_eq {c : PID} {e now : ℚ} (h : c.status ≠ PIDStatus.error)
    (h2 : ¬ (now - c.state.prevTime < c.sampleTime ∧ c.totalUpdates > 0)) :
    c.update e now =
      (let deltaTime : ℚ := now - c.state.prevTime
       let p : ℚ := c.kP * e
       let integral : ℚ :=
         if deltaTime > 0 then
           clip (c.state.integral + e * deltaTime) c.integralLimits.1 c.integralLimits.2
         else c.state.integral
       let integralTerm : ℚ := c.kI * integral
       let d : ℚ :=
         if deltaTime > 0 ∧ c.totalUpdates > 0 then
           c.kD * ((e - c.state.prevError) / deltaTime)
         else 0
       let rawOutput : ℚ := p + integralTerm + d
       let output : ℚ := clip rawOutput c.outputLimits.1 c.outputLimits.2
       let sat : Bool := decide (|rawOutput| > max |c.outputLimits.1| |c.outputLimits.2|)
       let entry : PIDEntry :=
         { timestamp := now, err := e, output := output
           pTerm := p, iTerm := integralTerm, dTerm := d, isSaturated := sat }
       let hist := c.performanceHistory ++ [entry]
       let hist := if hist.length > 100 then hist.tail else hist
       ({ c with
           state := { proportional := p, integral := integral, derivative := d
                      prevError := e, prevTime := now, output := output
                      isSaturated := sat }
           status := if sat then PIDStatus.saturated else PIDStatus.ready
           saturationCount := c.saturationCount + (if sat then 1 else 0)
           totalUpdates := c.totalUpdates + 1
           performanceHistory := hist },
        output)) := by
  simp [PID.update, h, h2]

/-- `update` never changes the configured integral limits. -/
theorem PID.update_integralLimits (c : PID) (e now : ℚ) :
    (c.update e now).1.integralLimits = c.integralLimits := by
  by_cases h : c.status = PIDStatus.error
  · rw [PID.update_of_error h]
  · by_cases h2 : now - c.state.prevTime < c.sampleTime ∧ c.totalUpdates > 0
    · rw [PID.update_early h h2]
    · rw [PID.update_run_eq h h2]

/-! ### Claims -/

/-- C1: `set_angles` never mutates the cached angles when either requested
angle is outside its configured range (returning `false`); when both are in
range and the controller is ready it returns `true` and writes exactly the
requested pair; and for the configured ranges pan `[-90, 90]`,
tilt `[-45, 45]`, `set_angles 100 0` returns `false` leaving the state
unchanged. -/
theorem claim_C1_set_angles_guard :
    (∀ (s : Servo) (pan tilt : ℚ),
        ¬ (s.panMin ≤ pan ∧ pan ≤ s.panMax ∧ s.tiltMin ≤ tilt ∧ tilt ≤ s.tiltMax) →
        s.setAngles pan tilt = (s, false)) ∧
    (∀ (s : Servo) (pan tilt : ℚ), s.status = ServoStatus.ready →
        s.panMin ≤ pan → pan ≤ s.panMax → s.tiltMin ≤ tilt → tilt ≤ s.tiltMax →
        (s.setAngles pan tilt).2 = true ∧
        (s.setAngles pan tilt).1.currentPanAngle = pan ∧
        (s.setAngles pan tilt).1.currentTiltAngle = tilt) ∧
    (∀ (s : Servo), s.panMin = -90 → s.panMax = 90 → s.tiltMin = -45 → s.tiltMax = 45 →
        s.setAngles 100 0 = (s, false)) := by
  have part1 : ∀ (s : Servo) (pan tilt : ℚ),
      ¬ (s.panMin ≤ pan ∧ pan ≤ s.panMax ∧ s.tiltMin ≤ tilt ∧ tilt ≤ s.tiltMax) →
      s.setAngles pan tilt = (s, false) := by
    intro s pan tilt h
    have hs : s.isAngleSafe pan tilt = false := by
      simp only [Servo.isAngleSafe, Servo.isPanAngleSafe, Servo.isTiltAngleSafe,
        Bool.and_eq_false_iff, decide_eq_false_iff_not, not_and]
      by_cases ha : s.panMin ≤ pan
      · by_cases hb : pan ≤ s.panMax
        · exact Or.inr (fun hc hd => h ⟨ha, hb, hc, hd⟩)
        · exact Or.inl (fun _ => hb)
      · exact Or.inl (fun hx => absurd hx ha)
    by_cases hr : s.isReady
    · simp [Servo.setAngles, hr, hs]
    · simp [Servo.setAngles, hr]
  refine ⟨part1, ?_, ?_⟩
  · intro s pan tilt hst h1 h2 h3 h4
    have hr : s.isReady = true := by simp [Servo.isReady, hst]
    have hs : s.isAngleSafe pan tilt = true := by
      simp only [Servo.isAngleSafe, Servo.isPanAngleSafe, Servo.isTiltAngleSafe,
        Bool.and_eq_true, decide_eq_true_eq]
      exact ⟨⟨h1, h2⟩, h3, h4⟩
    simp [Servo.setAngles, hr, hs]
  · intro s hpmin hpmax htmin htmax
    exact part1 s 100 0 (fun hx => by rw [hpmax] at hx; linarith [hx.2.1])

/-- Witness for C1 at a concrete ready servo with pan range `[-90, 90]` and
tilt range `[-45, 45]`: the out-of-range call `set_angles 100 0` fails and
changes nothing, and the in-range call `set_angles 30 (-10)` succeeds and
stores exactly `(30, -10)`. -/
theorem claim_C1_set_angles_guard_witness :
    (({ mkServo (-90) 90 (-45) 45 with status := ServoStatus.ready } : Servo).setAngles 100 0 =
      ({ mkServo (-90) 90 (-45) 45 with status := ServoStatus.ready }, false)) ∧
    ((({ mkServo (-90) 90 (-45) 45 with status := ServoStatus.ready } : Servo).setAngles 30 (-10)).2 = true ∧
     (({ mkServo (-90) 90 (-45) 45 with status := ServoStatus.ready } : Servo).setAngles 30 (-10)).1.currentPanAngle = 30 ∧
     (({ mkServo (-90) 90 (-45) 45 with status := ServoStatus.ready } : Servo).setAngles 30 (-10)).1.currentTiltAngle = -10) :=
  ⟨claim_C1_set_angles_guard.2.2 _ rfl rfl rfl rfl,
   claim_C1_set_angles_guard.2.1 _ 30 (-10) rfl (by norm_num [mkServo]) (by norm_num [mkServo])
     (by norm_num [mkServo]) (by norm_num [mkServo])⟩

/-- C2: for a non-error controller, `calculate_correction` computes the
pixel error from the image center, zeroes each component under the
deadband, and returns the gain-scaled error clipped to `±max_correction`
with the tilt sign inverted; with the default 640x480 controller the center
`(420, 240)` yields `(1.56, 0)` and `(320, 320)` yields `(0, -1.664)`; and
whenever both error components are inside the deadband the result is
`(0, 0)`. -/
theorem claim_C2_p_correction_formula :
    (∀ (c : SimpleP) (x y now : ℚ), c.status ≠ SimplePStatus.error →
        (c.calculateCorrection (x, y) now).2 =
          (clip ((if |x - (c.imageCenter.1 : ℚ)| < c.deadband then 0
                  else x - (c.imageCenter.1 : ℚ)) * c.panGain)
              (-c.maxCorrection) c.maxCorrection,
           clip (-(if |y - (c.imageCenter.2 : ℚ)| < c.deadband then 0
                   else y - (c.imageCenter.2 : ℚ)) * c.tiltGain)
              (-c.maxCorrection) c.maxCorrection)) ∧
    ((defaultSimpleP 0).calculateCorrection (420, 240) 0).2 = (156/100, 0) ∧
    ((defaultSimpleP 0).calculateCorrection (320, 320) 0).2 = (0, -(1664/1000)) ∧
    (∀ (c : SimpleP) (x y now : ℚ), c.status ≠ SimplePStatus.error →
        0 ≤ c.maxCorrection →
        |x - (c.imageCenter.1 : ℚ)| < c.deadband →
        |y - (c.imageCenter.2 : ℚ)| < c.deadband →
        (c.calculateCorrection (x, y) now).2 = (0, 0)) := by
  have part1 : ∀ (c : SimpleP) (x y now : ℚ), c.status ≠ SimplePStatus.error →
      (c.calculateCorrection (x, y) now).2 =
        (clip ((if |x - (c.imageCenter.1 : ℚ)| < c.deadband then 0
                else x - (c.imageCenter.1 : ℚ)) * c.panGain)
            (-c.maxCorrection) c.maxCorrection,
         clip (-(if |y - (c.imageCenter.2 : ℚ)| < c.deadband then 0
                 else y - (c.imageCenter.2 : ℚ)) * c.tiltGain)
            (-c.maxCorrection) c.maxCorrection) := by
    intro c x y now h
    simp [SimpleP.calculateCorrection, h]
  refine ⟨part1, ?_, ?_, ?_⟩
  · rw [part1 _ 420 240 0 (by simp [defaultSimpleP, mkSimpleP])]
    norm_num [defaultSimpleP, mkSimpleP, SimpleP.imageCenter, clip,
      show Int.fdiv 640 2 = (320 : ℤ) from rfl, show Int.fdiv 480 2 = (240 : ℤ) from rfl]
  · rw [part1 _ 320 320 0 (by simp [defaultSimpleP, mkSimpleP])]
    norm_num [defaultSimpleP, mkSimpleP, SimpleP.imageCenter, clip,
      show Int.fdiv 640 2 = (320 : ℤ) from rfl, show Int.fdiv 480 2 = (240 : ℤ) from rfl]
  · intro c x y now h hm h1 h2
    have hc : clip 0 (-c.maxCorrection) c.maxCorrection = 0 := by
      unfold clip
      rw [max_eq_right (by linarith), min_eq_right (by linarith)]
    simp [SimpleP.calculateCorrection, h, h1, h2, hc]

/-- Witness for C2 at the default controller (status `READY`, not error)
and the scenario center `(420, 240)`, plus a deadband point `(322, 243)`. -/
theorem claim_C2_p_correction_formula_witness :
    (((defaultSimpleP 0).calculateCorrection (420, 240) 7).2 =
      (clip ((if |(420 : ℚ) - ((defaultSimpleP 0).imageCenter.1 : ℚ)| < (defaultSimpleP 0).deadband then 0
              else (420 : ℚ) - ((defaultSimpleP 0).imageCenter.1 : ℚ)) * (defaultSimpleP 0).panGain)
          (-(defaultSimpleP 0).maxCorrection) (defaultSimpleP 0).maxCorrection,
       clip (-(if |(240 : ℚ) - ((defaultSimpleP 0).imageCenter.2 : ℚ)| < (defaultSimpleP 0).deadband then 0
               else (240 : ℚ) - ((defaultSimpleP 0).imageCenter.2 : ℚ)) * (defaultSimpleP 0).tiltGain)
          (-(defaultSimpleP 0).maxCorrection) (defaultSimpleP 0).maxCorrection)) ∧
    ((defaultSimpleP 0).calculateCorrection (322, 243) 7).2 = (0, 0) :=
  ⟨claim_C2_p_correction_formula.1 _ 420 240 7 (by simp [defaultSimpleP, mkSimpleP]),
   claim_C2_p_correction_formula.2.2.2 _ 322 243 7 (by simp [defaultSimpleP, mkSimpleP])
     (by norm_num [defaultSimpleP, mkSimpleP])
     (by norm_num [defaultSimpleP, mkSimpleP, SimpleP.imageCenter,
        show Int.fdiv 640 2 = (320 : ℤ) from rfl])
     (by norm_num [defaultSimpleP, mkSimpleP, SimpleP.imageCenter,
        show Int.fdiv 480 2 = (240 : ℤ) from rfl])⟩

/-- C4: the proportional controller's correction components are bounded by
`max_correction` in absolute value (given the configured
`max_correction ≥ 0`), and the PID update's returned output lies within the
configured `[output_min, output_max]` (given limits that admit the rest
value 0 and a previous output within the limits, as every reachable state
has). -/
theorem claim_C4_output_bounds :
    (∀ (c : SimpleP) (x y now : ℚ), 0 ≤ c.maxCorrection →
        |(c.calculateCorrection (x, y) now).2.1| ≤ c.maxCorrection ∧
        |(c.calculateCorrection (x, y) now).2.2| ≤ c.maxCorrection) ∧
    (∀ (c : PID) (e now : ℚ),
        c.outputLimits.1 ≤ 0 → 0 ≤ c.outputLimits.2 →
        c.outputLimits.1 ≤ c.state.output → c.state.output ≤ c.outputLimits.2 →
        c.outputLimits.1 ≤ (c.update e now).2 ∧
        (c.update e now).2 ≤ c.outputLimits.2) := by
  refine ⟨?_, ?_⟩
  · intro c x y now hm
    by_cases h : c.status = SimplePStatus.error
    · rw [SimpleP.calcCorrection_error h]
      constructor <;> simpa using hm
    · rw [SimpleP.calcCorrection_snd h]
      exact ⟨abs_clip_le hm, abs_clip_le hm⟩
  · intro c e now h0 h1 hlo hhi
    by_cases h : c.status = PIDStatus.error
    · rw [PID.update_of_error h]
      exact ⟨h0, h1⟩
    · by_cases h2 : now - c.state.prevTime < c.sampleTime ∧ c.totalUpdates > 0
      · rw [PID.update_early h h2]
        exact ⟨hlo, hhi⟩
      · rw [PID.update_run_eq h h2]
        exact ⟨left_le_clip (h0.trans h1), clip_le_right⟩

/-- Witness for C4 at the default proportional controller
(`max_correction = 15`) and the default PID (limits `(-90, 90)`, fresh
output 0): the correction at a far corner point and the first PID update on
error 1000 obey the bounds. -/
theorem claim_C4_output_bounds_witness :
    (|((defaultSimpleP 0).calculateCorrection (0, 0) 1).2.1| ≤ (defaultSimpleP 0).maxCorrection ∧
     |((defaultSimpleP 0).calculateCorrection (0, 0) 1).2.2| ≤ (defaultSimpleP 0).maxCorrection) ∧
    ((defaultPID 0).outputLimits.1 ≤ ((defaultPID 0).update 1000 1).2 ∧
     ((defaultPID 0).update 1000 1).2 ≤ (defaultPID 0).outputLimits.2) :=
  ⟨claim_C4_output_bounds.1 _ 0 0 1 (by norm_num [defaultSimpleP, mkSimpleP]),
   claim_C4_output_bounds.2 _ 1000 1 (by norm_num [defaultPID, mkPID])
     (by norm_num [defaultPID, mkPID]) (by norm_num [defaultPID, mkPID])
     (by norm_num [defaultPID, mkPID])⟩

/-- C5: the PID integral accumulator stays within
`[integral_min, integral_max]` across each update and across an arbitrarily
long sequence of updates (starting from an in-range accumulator, as after
construction or reset with `integral_min ≤ 0 ≤ integral_max`); and on the
computing path with positive `delta_time` the new accumulator is exactly the
old one plus `error * delta_time`, clamped to the limits. -/
theorem claim_C5_integral_antiwindup :
    (∀ (c : PID) (e now : ℚ),
        c.integralLimits.1 ≤ c.state.integral → c.state.integral ≤ c.integralLimits.2 →
        c.integralLimits.1 ≤ (c.update e now).1.state.integral ∧
        (c.update e now).1.state.integral ≤ c.integralLimits.2) ∧
    (∀ (c : PID) (steps : List (ℚ × ℚ)),
        c.integralLimits.1 ≤ c.state.integral → c.state.integral ≤ c.integralLimits.2 →
        c.integralLimits.1 ≤ (c.runUpdates steps).state.integral ∧
        (c.runUpdates steps).state.integral ≤ c.integralLimits.2) ∧
    (∀ (c : PID) (e now : ℚ), c.status ≠ PIDStatus.error →
        ¬ (now - c.state.prevTime < c.sampleTime ∧ c.totalUpdates > 0) →
        now - c.state.prevTime > 0 →
        (c.update e now).1.state.integral =
          clip (c.state.integral + e * (now - c.state.prevTime))
            c.integralLimits.1 c.integralLimits.2) := by
  have partA : ∀ (c : PID) (e now : ℚ),
      c.integralLimits.1 ≤ c.state.integral → c.state.integral ≤ c.integralLimits.2 →
      c.integralLimits.1 ≤ (c.update e now).1.state.integral ∧
      (c.update e now).1.state.integral ≤ c.integralLimits.2 := by
    intro c e now hlo hhi
    by_cases h : c.status = PIDStatus.error
    · rw [PID.update_of_error h]
      exact ⟨hlo, hhi⟩
    · by_cases h2 : now - c.state.prevTime < c.sampleTime ∧ c.totalUpdates > 0
      · rw [PID.update_early h h2]
        exact ⟨hlo, hhi⟩
      · rw [PID.update_run_eq h h2]
        by_cases hdt : now - c.state.prevTime > 0
        · simp only [hdt, if_true]
          exact ⟨left_le_clip (hlo.trans hhi), clip_le_right⟩
        · simp only [hdt, if_false]
          exact ⟨hlo, hhi⟩
  refine ⟨partA, ?_, ?_⟩
  · intro c steps
    induction steps generalizing c with
    | nil => intro h1 h2; exact ⟨h1, h2⟩
    | cons s rest ih =>
      intro h1 h2
      have hA := partA c s.1 s.2 h1 h2
      have hLim := PID.update_integralLimits c s.1 s.2
      have hrec := ih (c.update s.1 s.2).1 (by rw [hLim]; exact hA.1) (by rw [hLim]; exact hA.2)
      rw [hLim] at hrec
      exact hrec
  · intro c e now h h2 hdt
    rw [PID.update_run_eq h h2]
    simp only [hdt, if_true]

/-- Witness for C5 at the default PID (integral limits `(-50, 50)`, fresh
integral 0): a single update, a three-step run with constant error 1000,
and the clamp equation at the first update. -/
theorem claim_C5_integral_antiwindup_witness :
    ((defaultPID 0).integralLimits.1 ≤ ((defaultPID 0).update 1000 1).1.state.integral ∧
     ((defaultPID 0).update 1000 1).1.state.integral ≤ (defaultPID 0).integralLimits.2) ∧
    ((defaultPID 0).integralLimits.1 ≤
        ((defaultPID 0).runUpdates [(1000, 1), (1000, 2), (1000, 3)]).state.integral ∧
     ((defaultPID 0).runUpdates [(1000, 1), (1000, 2), (1000, 3)]).state.integral ≤
        (defaultPID 0).integralLimits.2) ∧
    ((defaultPID 0).update 1000 1).1.state.integral =
      clip ((defaultPID 0).state.integral + 1000 * ((1 : ℚ) - (defaultPID 0).state.prevTime))
        (defaultPID 0).integralLimits.1 (defaultPID 0).integralLimits.2 :=
  ⟨claim_C5_integral_antiwindup.1 _ 1000 1 (by norm_num [defaultPID, mkPID])
     (by norm_num [defaultPID, mkPID]),
   claim_C5_integral_antiwindup.2.1 _ [(1000, 1), (1000, 2), (1000, 3)]
     (by norm_num [defaultPID, mkPID]) (by norm_num [defaultPID, mkPID]),
   claim_C5_integral_antiwindup.2.2 _ 1000 1 (by simp [defaultPID, mkPID])
     (by norm_num [defaultPID, mkPID]) (by norm_num [defaultPID, mkPID])⟩

/-- A PID with deliberately asymmetric output limits `(-10, 90)`
(`kP = 1`, `kI = kD = 0`), as the constructor admits. -/
def asymPID : PID := mkPID 1 0 0 (-10, 90) (-50, 50) (1/100) 0

/-- C7 counterexample: on the asymmetric-limit PID, the first update with
error `-50` produces an unclamped sum `P + I + D = -50` that lies strictly
below `output_min = -10` (so outside `[output_min, output_max]`), and the
returned output is the clamped `-10`; yet the saturated flag is `false`,
because the code compares `|raw|` against `max |output_min| |output_max|
= 90`.  This refutes the claim's reading of the flag as "raw output outside
`[output_min, output_max]`". -/
theorem claim_C7_counterexample :
    (asymPID.update (-50) 1).1.state.proportional +
      asymPID.kI * (asymPID.update (-50) 1).1.state.integral +
      (asymPID.update (-50) 1).1.state.derivative = -50 ∧
    (-50 : ℚ) < asymPID.outputLimits.1 ∧
    (asymPID.update (-50) 1).2 = asymPID.outputLimits.1 ∧
    (asymPID.update (-50) 1).1.state.isSaturated = false := by
  rw [PID.update_run_eq (by simp [asymPID, mkPID]) (by norm_num [asymPID, mkPID])]
  refine ⟨?_, ?_, ?_, ?_⟩
  · norm_num [asymPID, mkPID, clip]
  · norm_num [asymPID, mkPID]
  · norm_num [asymPID, mkPID, clip]
  · simp only [decide_eq_false_iff_not]
    norm_num [asymPID, mkPID, clip]

/-- C7 amended: on the computing path, the saturated flag is set exactly
when the magnitude of the unclamped sum `P + I + D` exceeds
`max |output_min| |output_max|` (which coincides with "outside
`[output_min, output_max]`" only for symmetric limits), while the returned
output is always the sum clamped to `[output_min, output_max]` — the flag
never alters the clamping. -/
theorem claim_C7_saturation_flag_amended :
    ∀ (c : PID) (e now : ℚ), c.status ≠ PIDStatus.error →
      ¬ (now - c.state.prevTime < c.sampleTime ∧ c.totalUpdates > 0) →
      (((c.update e now).1.state.isSaturated = true) ↔
          |(c.update e now).1.state.proportional +
            c.kI * (c.update e now).1.state.integral +
            (c.update e now).1.state.derivative| >
          max |c.outputLimits.1| |c.outputLimits.2|) ∧
      (c.update e now).2 =
        clip ((c.update e now).1.state.proportional +
            c.kI * (c.update e now).1.state.integral +
            (c.update e now).1.state.derivative)
          c.outputLimits.1 c.outputLimits.2 ∧
      (c.update e now).1.state.output = (c.update e now).2 := by
  intro c e now h h2
  rw [PID.update_run_eq h h2]
  exact ⟨by simp, rfl, rfl⟩

/-- Witness for C7 (amended) at the default PID, first update on error 200
at time 1. -/
theorem claim_C7_saturation_flag_amended_witness :
    ((((defaultPID 0).update 200 1).1.state.isSaturated = true) ↔
        |((defaultPID 0).update 200 1).1.state.proportional +
          (defaultPID 0).kI * ((defaultPID 0).update 200 1).1.state.integral +
          ((defaultPID 0).update 200 1).1.state.derivative| >
        max |(defaultPID 0).outputLimits.1| |(defaultPID 0).outputLimits.2|) ∧
    ((defaultPID 0).update 200 1).2 =
      clip (((defaultPID 0).update 200 1).1.state.proportional +
          (defaultPID 0).kI * ((defaultPID 0).update 200 1).1.state.integral +
          ((defaultPID 0).update 200 1).1.state.derivative)
        (defaultPID 0).outputLimits.1 (defaultPID 0).outputLimits.2 ∧
    ((defaultPID 0).update 200 1).1.state.output = ((defaultPID 0).update 200 1).2 :=
  claim_C7_saturation_flag_amended _ 200 1 (by simp [defaultPID, mkPID])
    (by norm_num [defaultPID, mkPID])

/-- C9: `set_output_limits` and `set_integral_limits` reject `min ≥ max`
(raising, modelled by the `false` flag) with the controller returned
exactly unchanged — atomic failure — and accept `min < max`, storing
exactly the new pair. -/
theorem claim_C9_limit_setters :
    ∀ (c : PID) (mn mx : ℚ),
      (mn ≥ mx →
          c.setOutputLimits mn mx = (c, false) ∧
          c.setIntegralLimits mn mx = (c, false)) ∧
      (mn < mx →
          c.setOutputLimits mn mx = ({ c with outputLimits := (mn, mx) }, true) ∧
          c.setIntegralLimits mn mx = ({ c with integralLimits := (mn, mx) }, true)) := by
  intro c mn mx
  constructor
  · intro h
    constructor <;> simp [PID.setOutputLimits, PID.setIntegralLimits, h]
  · intro h
    constructor <;> simp [PID.setOutputLimits, PID.setIntegralLimits, not_le.mpr h]

/-- Witness for C9 at the default PID with the invalid pair `(5, 3)` and
the valid pair `(-2, 2)`. -/
theorem claim_C9_limit_setters_witness :
    ((defaultPID 0).setOutputLimits 5 3 = (defaultPID 0, false) ∧
     (defaultPID 0).setIntegralLimits 5 3 = (defaultPID 0, false)) ∧
    ((defaultPID 0).setOutputLimits (-2) 2 =
        ({ defaultPID 0 with outputLimits := (-2, 2) }, true) ∧
     (defaultPID 0).setIntegralLimits (-2) 2 =
        ({ defaultPID 0 with integralLimits := (-2, 2) }, true)) :=
  ⟨(claim_C9_limit_setters (defaultPID 0) 5 3).1 (by norm_num),
   (claim_C9_limit_setters (defaultPID 0) (-2) 2).2 (by norm_num)⟩

/-- C10: `ERROR` is absorbing: in `ERROR` status `calculate_correction`
returns `(0, 0)` (resp. `update` returns 0) leaving the controller
untouched; `reset` zeroes the accumulators and clears the history but
restores `READY` only from a non-`ERROR` status, leaving an `ERROR`
controller in `ERROR`. -/
theorem claim_C10_error_absorbing :
    (∀ (c : SimpleP) (x y now : ℚ), c.status = SimplePStatus.error →
        c.calculateCorrection (x, y) now = (c, (0, 0))) ∧
    (∀ (c : PID) (e now : ℚ), c.status = PIDStatus.error →
        c.update e now = (c, 0)) ∧
    (∀ (c : SimpleP) (now : ℚ),
        (c.reset now).state.lastError = (0, 0) ∧
        (c.reset now).state.lastOutput = (0, 0) ∧
        (c.reset now).state.totalCorrections = 0 ∧
        (c.reset now).performanceHistory = [] ∧
        (c.status = SimplePStatus.error → (c.reset now).status = SimplePStatus.error) ∧
        (c.status ≠ SimplePStatus.error → (c.reset now).status = SimplePStatus.ready)) ∧
    (∀ (c : PID) (now : ℚ),
        (c.reset now).state.integral = 0 ∧
        (c.reset now).state.proportional = 0 ∧
        (c.reset now).state.derivative = 0 ∧
        (c.reset now).state.prevError = 0 ∧
        (c.reset now).state.output = 0 ∧
        (c.reset now).performanceHistory = [] ∧
        (c.status = PIDStatus.error → (c.reset now).status = PIDStatus.error) ∧
        (c.status ≠ PIDStatus.error → (c.reset now).status = PIDStatus.ready)) := by
  refine ⟨?_, ?_, ?_, ?_⟩
  · intro c x y now h
    exact SimpleP.calcCorrection_error h (x, y) now
  · intro c e now h
    exact PID.update_of_error h e now
  · intro c now
    refine ⟨rfl, rfl, rfl, rfl, ?_, ?_⟩ <;> intro h <;> simp [SimpleP.reset, h]
  · intro c now
    refine ⟨rfl, rfl, rfl, rfl, rfl, rfl, ?_, ?_⟩ <;> intro h <;> simp [PID.reset, h]

/-- Witness for C10 on concrete error-status controllers (an erroring copy
of each default controller) and the default (non-error) controllers. -/
theorem claim_C10_error_absorbing_witness :
    ({ defaultSimpleP 0 with status := SimplePStatus.error } : SimpleP).calculateCorrection (400, 300) 2 =
      ({ defaultSimpleP 0 with status := SimplePStatus.error }, (0, 0)) ∧
    ({ defaultPID 0 with status := PIDStatus.error } : PID).update 3 2 =
      ({ defaultPID 0 with status := PIDStatus.error }, 0) ∧
    (({ defaultSimpleP 0 with status := SimplePStatus.error } : SimpleP).reset 2).status = SimplePStatus.error ∧
    ((defaultSimpleP 0).reset 2).status = SimplePStatus.ready ∧
    (({ defaultPID 0 with status := PIDStatus.error } : PID).reset 2).status = PIDStatus.error ∧
    ((defaultPID 0).reset 2).status = PIDStatus.ready :=
  ⟨claim_C10_error_absorbing.1 _ 400 300 2 rfl,
   claim_C10_error_absorbing.2.1 _ 3 2 rfl,
   ((claim_C10_error_absorbing.2.2.1 { defaultSimpleP 0 with status := SimplePStatus.error } 2).2.2.2.2.1) rfl,
   ((claim_C10_error_absorbing.2.2.1 (defaultSimpleP 0) 2).2.2.2.2.2)
     (by simp [defaultSimpleP, mkSimpleP]),
   ((claim_C10_error_absorbing.2.2.2 { defaultPID 0 with status := PIDStatus.error } 2).2.2.2.2.2.2.1) rfl,
   ((claim_C10_error_absorbing.2.2.2 (defaultPID 0) 2).2.2.2.2.2.2.2)
     (by simp [defaultPID, mkPID])⟩

/-- The scan pattern never changes the mode. -/
theorem Coordinator.scanPattern_mode (sinA : ℚ → ℚ) (c : Coordinator) (now : ℚ) :
    (Coordinator.executeScanPattern sinA c now).status.mode = c.status.mode := by
  simp only [Coordinator.executeScanPattern]
  split_ifs <;> rfl

/-- C3: the coordinator starts in `STANDBY`; `initialize_system` sets the
mode to `SCANNING` exactly on success (leaving it untouched, hence
`STANDBY`, on any failure); any cycle with an accepted detection ends in
`TRACKING`; and while `TRACKING` a no-detection cycle demotes to `SCANNING`
only when the last accepted detection is older than `lost_target_timeout` —
within the timeout the mode stays `TRACKING` with the angles and the servo
held. -/
theorem claim_C3_mode_machine :
    (∀ (iw ih : ℤ) (lt now : ℚ),
        (mkCoordinator iw ih lt now).status.mode = TrackingMode.standby) ∧
    (∀ (c : Coordinator) (cam sv yo : Bool) (now : ℚ),
        ((c.initSystem cam sv yo now).2 = true →
            (c.initSystem cam sv yo now).1.status.mode = TrackingMode.scanning) ∧
        ((c.initSystem cam sv yo now).2 = false →
            (c.initSystem cam sv yo now).1.status.mode = c.status.mode)) ∧
    (∀ (sinA : ℚ → ℚ) (c : Coordinator) (d : Detection) (now : ℚ),
        (c.updateTrackingControl sinA (some d) now).status.mode = TrackingMode.tracking) ∧
    (∀ (sinA : ℚ → ℚ) (c : Coordinator) (t now : ℚ),
        c.status.mode = TrackingMode.tracking →
        c.status.lastDetectionTime = some t →
        ¬ (now - t > c.lostTargetTimeout) →
        (c.updateTrackingControl sinA none now).status.mode = TrackingMode.tracking ∧
        (c.updateTrackingControl sinA none now).status.panAngle = c.status.panAngle ∧
        (c.updateTrackingControl sinA none now).status.tiltAngle = c.status.tiltAngle ∧
        (c.updateTrackingControl sinA none now).servo = c.servo) ∧
    (∀ (sinA : ℚ → ℚ) (c : Coordinator) (t now : ℚ),
        c.status.mode = TrackingMode.tracking →
        c.status.lastDetectionTime = some t →
        now - t > c.lostTargetTimeout →
        (c.updateTrackingControl sinA none now).status.mode = TrackingMode.scanning) := by
  refine ⟨fun _ _ _ _ => rfl, ?_, ?_, ?_, ?_⟩
  · intro c cam sv yo now
    cases cam <;> cases sv <;> cases yo <;>
      constructor <;> intro h <;>
        first
          | rfl
          | simp [Coordinator.initSystem, Servo.initServo] at h ⊢
  · intro sinA c d now
    by_cases h : c.status.mode = TrackingMode.tracking <;>
      · simp [Coordinator.updateTrackingControl, h]
        split_ifs <;> simp [h]
  · intro sinA c t now hm hlast hto
    simp [Coordinator.updateTrackingControl, hlast, hto, hm]
  · intro sinA c t now hm hlast hto
    simp [Coordinator.updateTrackingControl, hlast, hto, hm,
      Coordinator.scanPattern_mode]

/-- A stand-in for `np.sin` that is identically 0 (any bounded waveform
sample works for instantiating the coordinator step). -/
def zeroSin : ℚ → ℚ := fun _ => 0

/-- A stand-in for `np.sin` that is identically 1/2 (bounded by 1). -/
def halfSin : ℚ → ℚ := fun _ => 1/2

/-- The coordinator right after a fully successful `initialize_system`
(640x480, lost-target timeout 5 s, at time 0). -/
def freshCoordinator : Coordinator :=
  ((mkCoordinator 640 480 5 0).initSystem true true true 0).1

/-- A coordinator in `TRACKING` mode with a ready servo at center and a
last accepted detection at time 1. -/
def trackingCoordinator : Coordinator :=
  { mkCoordinator 640 480 5 0 with
      status := { (mkCoordinator 640 480 5 0).status with
                    mode := TrackingMode.tracking, lastDetectionTime := some 1 }
      servo := { mkServo (-90) 90 (-45) 45 with status := ServoStatus.ready } }

/-- `trackingCoordinator` demoted to `SCANNING` (same last detection). -/
def scanningCoordinator : Coordinator :=
  { trackingCoordinator with
      status := { trackingCoordinator.status with mode := TrackingMode.scanning } }

/-- A sample detection (a dog bbox centered at `(150, 150)`). -/
def testDetection : Detection :=
  { className := "dog", confidence := 9/10
    bbox := { x1 := 100, y1 := 100, x2 := 200, y2 := 200 } }

/-- Witness for C3: construction is `STANDBY`; a fully successful init is
`SCANNING` while a failed servo init stays `STANDBY`; a detection cycle is
`TRACKING`; a no-detection cycle 2 s after the last detection (timeout 5 s)
stays `TRACKING`; one 6 s after it is `SCANNING`. -/
theorem claim_C3_mode_machine_witness :
    (mkCoordinator 640 480 5 0).status.mode = TrackingMode.standby ∧
    freshCoordinator.status.mode = TrackingMode.scanning ∧
    ((mkCoordinator 640 480 5 0).initSystem true false true 0).1.status.mode =
      TrackingMode.standby ∧
    (freshCoordinator.updateTrackingControl zeroSin (some testDetection) 1).status.mode =
      TrackingMode.tracking ∧
    (trackingCoordinator.updateTrackingControl zeroSin none 3).status.mode =
      TrackingMode.tracking ∧
    (trackingCoordinator.updateTrackingControl zeroSin none 7).status.mode =
      TrackingMode.scanning :=
  ⟨claim_C3_mode_machine.1 640 480 5 0,
   (claim_C3_mode_machine.2.1 (mkCoordinator 640 480 5 0) true true true 0).1 rfl,
   (claim_C3_mode_machine.2.1 (mkCoordinator 640 480 5 0) true false true 0).2 rfl,
   claim_C3_mode_machine.2.2.1 zeroSin freshCoordinator testDetection 1,
   (claim_C3_mode_machine.2.2.2.1 zeroSin trackingCoordinator 1 3 rfl rfl
      (by norm_num [trackingCoordinator, mkCoordinator])).1,
   claim_C3_mode_machine.2.2.2.2 zeroSin trackingCoordinator 1 7 rfl rfl
      (by norm_num [trackingCoordinator, mkCoordinator])⟩

/-- C6: in a detection cycle on a ready servo, the coordinator's cached
angles and recorded correction are updated exactly when the guarded apply
succeeds: when the new target angles pass `is_angle_safe`, `set_angles`
succeeds and the cache moves to the new pair with `correction_applied` set
to the computed correction; when they do not, the cached angles, the
recorded correction and the servo state are all left unchanged while the
cycle still completes (`target_detected` is still set). -/
theorem claim_C6_apply_gated_cache :
    ∀ (sinA : ℚ → ℚ) (c : Coordinator) (d : Detection) (now cx cy : ℚ)
      (corr : ℚ × ℚ) (newPan newTilt : ℚ),
      c.servo.status = ServoStatus.ready →
      cx = (d.bbox.x1 + d.bbox.x2) / 2 →
      cy = (d.bbox.y1 + d.bbox.y2) / 2 →
      corr = (c.simpleP.calculateCorrection (cx, cy) now).2 →
      newPan = c.status.panAngle + corr.1 →
      newTilt = c.status.tiltAngle + corr.2 →
      (c.servo.isAngleSafe newPan newTilt = true →
          (c.servo.setAngles newPan newTilt).2 = true ∧
          (c.updateTrackingControl sinA (some d) now).status.panAngle = newPan ∧
          (c.updateTrackingControl sinA (some d) now).status.tiltAngle = newTilt ∧
          (c.updateTrackingControl sinA (some d) now).status.correctionApplied = corr) ∧
      (c.servo.isAngleSafe newPan newTilt = false →
          (c.updateTrackingControl sinA (some d) now).status.panAngle = c.status.panAngle ∧
          (c.updateTrackingControl sinA (some d) now).status.tiltAngle = c.status.tiltAngle ∧
          (c.updateTrackingControl sinA (some d) now).status.correctionApplied =
            c.status.correctionApplied ∧
          (c.updateTrackingControl sinA (some d) now).servo = c.servo ∧
          (c.updateTrackingControl sinA (some d) now).status.targetDetected = true) := by
  intro sinA c d now cx cy corr newPan newTilt hready hcx hcy hcorr hpan htilt
  subst hcx hcy hcorr hpan htilt
  constructor
  · intro hsafe
    refine ⟨Servo.setAngles_succeeds hready hsafe, ?_⟩
    by_cases hm : c.status.mode = TrackingMode.tracking <;>
      simp [Coordinator.updateTrackingControl, hm, hsafe]
  · intro hsafe
    by_cases hm : c.status.mode = TrackingMode.tracking <;>
      simp [Coordinator.updateTrackingControl, hm, hsafe]

/-- Witness for C6 on the concrete `TRACKING` coordinator and the sample
detection at `(150, 150)`: the correction is `(-663/250, 234/125)`, the new
angle pair is safe, and the theorem yields the successful-apply branch. -/
theorem claim_C6_apply_gated_cache_witness :
    (trackingCoordinator.servo.setAngles (0 + (-663/250 : ℚ)) (0 + (234/125 : ℚ))).2 = true ∧
    (trackingCoordinator.updateTrackingControl zeroSin (some testDetection) 2).status.panAngle =
      0 + (-663/250 : ℚ) ∧
    (trackingCoordinator.updateTrackingControl zeroSin (some testDetection) 2).status.tiltAngle =
      0 + (234/125 : ℚ) ∧
    (trackingCoordinator.updateTrackingControl zeroSin (some testDetection) 2).status.correctionApplied =
      ((-663/250 : ℚ), (234/125 : ℚ)) :=
  (claim_C6_apply_gated_cache zeroSin trackingCoordinator testDetection 2 150 150
      ((-663/250 : ℚ), (234/125 : ℚ)) (0 + (-663/250 : ℚ)) (0 + (234/125 : ℚ))
      rfl (by norm_num [testDetection]) (by norm_num [testDetection])
      (by rw [SimpleP.calcCorrection_snd (by simp [trackingCoordinator, mkCoordinator, mkSimpleP])]
          norm_num [trackingCoordinator, mkCoordinator, mkSimpleP, SimpleP.imageCenter, clip,
            show Int.fdiv 640 2 = (320 : ℤ) from rfl, show Int.fdiv 480 2 = (240 : ℤ) from rfl])
      (by norm_num [trackingCoordinator, mkCoordinator]) (by norm_num [trackingCoordinator, mkCoordinator])).1
    (by norm_num [trackingCoordinator, mkServo, Servo.isAngleSafe,
        Servo.isPanAngleSafe, Servo.isTiltAngleSafe])

/-- C8 counterexample: a freshly initialized coordinator is in `SCANNING`
with no previous detection (`last_detection_time = None`); in a no-detection
cycle at time 7 no sweep step is executed at all — the servo is untouched
and the cached pan stays 0 — even though the sweep sinusoid value
`30 * sin(0.1 * 7)` (here `halfSin` gives 15) differs from 0.  This refutes
"in every cycle in SCANNING mode with no detection, the coordinator
executes a sweep step". -/
theorem claim_C8_counterexample :
    freshCoordinator.status.mode = TrackingMode.scanning ∧
    freshCoordinator.status.lastDetectionTime = none ∧
    (freshCoordinator.updateTrackingControl halfSin none 7).servo = freshCoordinator.servo ∧
    (freshCoordinator.updateTrackingControl halfSin none 7).status.panAngle = 0 ∧
    30 * halfSin (7 * (1/10)) = 15 ∧
    (freshCoordinator.updateTrackingControl halfSin none 7).status.panAngle ≠
      30 * halfSin (7 * (1/10)) := by
  refine ⟨rfl, rfl, rfl, rfl, by norm_num [halfSin], ?_⟩
  have h1 : (freshCoordinator.updateTrackingControl halfSin none 7).status.panAngle = 0 := rfl
  rw [h1]
  norm_num [halfSin]

/-- C8 amended: the sweep step runs in a `SCANNING` no-detection cycle only
when a previous accepted detection exists and is older than
`lost_target_timeout`; in that case pan is set to the bounded deterministic
value `30 * sin(0.1 * now)` with tilt 0, issued through the same
`is_angle_safe` / `set_angles` guard path as tracking corrections (an
unsafe sweep angle leaves the servo and cache untouched); and the sweep
value is bounded by ±30 degrees whenever `|sin| ≤ 1`. -/
theorem claim_C8_scan_sweep_amended :
    (∀ (sinA : ℚ → ℚ) (c : Coordinator) (t now newPan : ℚ),
        c.status.mode = TrackingMode.scanning →
        c.status.lastDetectionTime = some t →
        now - t > c.lostTargetTimeout →
        newPan = 30 * sinA (now * (1/10)) →
        (c.servo.isAngleSafe newPan 0 = true →
            (c.updateTrackingControl sinA none now).status.panAngle = newPan ∧
            (c.updateTrackingControl sinA none now).status.tiltAngle = 0 ∧
            (c.updateTrackingControl sinA none now).servo = (c.servo.setAngles newPan 0).1) ∧
        (c.servo.isAngleSafe newPan 0 = false →
            (c.updateTrackingControl sinA none now).servo = c.servo ∧
            (c.updateTrackingControl sinA none now).status.panAngle = c.status.panAngle ∧
            (c.updateTrackingControl sinA none now).status.tiltAngle = c.status.tiltAngle)) ∧
    (∀ (sinA : ℚ → ℚ) (now : ℚ), (∀ z, |sinA z| ≤ 1) →
        |30 * sinA (now * (1/10))| ≤ 30) := by
  constructor
  · intro sinA c t now newPan hmode hlast hto hpan
    subst hpan
    have hm : c.status.mode ≠ TrackingMode.tracking := by rw [hmode]; intro hx; cases hx
    constructor <;> intro hsafe <;>
      · simp only [one_div] at hsafe
        simp [Coordinator.updateTrackingControl, Coordinator.executeScanPattern,
          hlast, hto, hm, hsafe]
  · intro sinA now hb
    calc |30 * sinA (now * (1/10))| = 30 * |sinA (now * (1/10))| := by
          rw [abs_mul]; norm_num
      _ ≤ 30 * 1 := by
          have := hb (now * (1/10))
          nlinarith
      _ = 30 := by norm_num

/-- Witness for C8 (amended) on the concrete `SCANNING` coordinator whose
last detection (at time 1) is 6 s old at time 7 (timeout 5 s), with the
bounded waveform `halfSin`: the sweep pan is 15, it is safe, and the cache
and servo follow the `set_angles` path; and the sweep value is within
±30. -/
theorem claim_C8_scan_sweep_amended_witness :
    ((scanningCoordinator.updateTrackingControl halfSin none 7).status.panAngle =
        30 * halfSin (7 * (1/10)) ∧
     (scanningCoordinator.updateTrackingControl halfSin none 7).status.tiltAngle = 0 ∧
     (scanningCoordinator.updateTrackingControl halfSin none 7).servo =
        (scanningCoordinator.servo.setAngles (30 * halfSin (7 * (1/10))) 0).1) ∧
    |30 * halfSin (7 * (1/10))| ≤ 30 :=
  ⟨(claim_C8_scan_sweep_amended.1 halfSin scanningCoordinator 1 7
      (30 * halfSin (7 * (1/10))) rfl rfl
      (by norm_num [scanningCoordinator, trackingCoordinator, mkCoordinator]) rfl).1
      (by norm_num [scanningCoordinator, trackingCoordinator, mkServo, halfSin,
        Servo.isAngleSafe, Servo.isPanAngleSafe, Servo.isTiltAngleSafe]),
   claim_C8_scan_sweep_amended.2 halfSin 7
     (fun z => show |(1 : ℚ)/2| ≤ 1 by rw [abs_of_nonneg (by norm_num)]; norm_num)⟩

end PanTilt
